import Mathlib

/-!
Shallow embedding of `src/lib.rs` (module `window`) of the repository
`wgpu_basic_setup`: a program that opens a window and renders a static
two-triangle quad with wgpu, clearing to white each frame.

GPU/OS handles (`wgpu::Surface`, `wgpu::Device`, `wgpu::Queue`,
`winit::window::Window`) are opaque resources; their observable behaviour
is modelled as effect traces: `surface.configure` calls are recorded as a
list of the `SurfaceConfiguration` values applied, and command recording
inside `State::render` is recorded as a list of `RenderOp`s.  Rust slice
indexing that can panic (`surface_caps.formats[0]`,
`surface_caps.alpha_modes[0]`) is modelled with `Option`, `none` standing
for the panic.  `f32`/`f64` literals appearing in the source (vertex
coordinates, clear color) are exact dyadic values and are modelled as `ℚ`;
no floating-point arithmetic is performed by the program.
-/

namespace Window

/-- `winit::dpi::PhysicalSize<u32>`. -/
structure PhysicalSize where
  width : Nat
  height : Nat
deriving DecidableEq

/-- `wgpu::TextureFormat`, abstracted to an identifier plus its
`is_srgb()` flag, the only observation the program makes of it. -/
structure TextureFormat where
  id : Nat
  srgb : Bool
deriving DecidableEq

/-- `TextureFormat::is_srgb` from wgpu, as used in the filter at
`lib.rs:184`. -/
def TextureFormat.is_srgb (f : TextureFormat) : Bool := f.srgb

/-- `wgpu::PresentMode`; the program only ever uses `Fifo` (`lib.rs:193`). -/
inductive PresentMode where
  | Fifo
  | Immediate
  | Mailbox
deriving DecidableEq

/-- `wgpu::CompositeAlphaMode`. -/
inductive AlphaMode where
  | Opaque
  | PreMultiplied
  | PostMultiplied
  | Inherit
  | Auto
deriving DecidableEq

/-- `wgpu::TextureUsages`; the program only uses `RENDER_ATTACHMENT`
(`lib.rs:189`). -/
inductive TextureUsages where
  | RENDER_ATTACHMENT
deriving DecidableEq

/-- `wgpu::SurfaceConfiguration` (`lib.rs:188`–`196`). -/
structure SurfaceConfiguration where
  usage : TextureUsages
  format : TextureFormat
  width : Nat
  height : Nat
  present_mode : PresentMode
  alpha_mode : AlphaMode
  view_formats : List TextureFormat
deriving DecidableEq

/-- `wgpu::Color` (four `f64` channels, here exact rationals). -/
structure Color where
  r : ℚ
  g : ℚ
  b : ℚ
  a : ℚ
deriving DecidableEq

/-- `wgpu::Color::WHITE` = `{ r: 1.0, g: 1.0, b: 1.0, a: 1.0 }`. -/
def Color.WHITE : Color := ⟨1, 1, 1, 1⟩

/-- `Vertex` (`lib.rs:52`–`55`): 3 position and 3 color `f32` components. -/
structure Vertex where
  position : List ℚ
  color : List ℚ
deriving DecidableEq

/-- `VERTICES` (`lib.rs:59`–`67`): the fixed compile-time list of 6
vertices forming two triangles. -/
def VERTICES : List Vertex :=
  [ ⟨[-(1/2),   1/2, 0], [1, 0, 0]⟩,
    ⟨[-(1/2), -(1/2), 0], [0, 1, 0]⟩,
    ⟨[  1/2,  -(1/2), 0], [0, 0, 1]⟩,
    ⟨[  1/2,  -(1/2), 0], [0, 0, 1]⟩,
    ⟨[  1/2,    1/2, 0], [1, 1, 0]⟩,
    ⟨[-(1/2),   1/2, 0], [1, 0, 0]⟩ ]

/-- `wgpu::VertexFormat`, restricted to the one used. -/
inductive VertexFormat where
  | Float32x3
deriving DecidableEq

/-- `wgpu::VertexStepMode`. -/
inductive VertexStepMode where
  | Vertex
  | Instance
deriving DecidableEq

/-- `wgpu::VertexAttribute`. -/
structure VertexAttribute where
  shader_location : Nat
  offset : Nat
  format : VertexFormat
deriving DecidableEq

/-- `wgpu::VertexBufferLayout`. -/
structure VertexBufferLayout where
  array_stride : Nat
  step_mode : VertexStepMode
  attributes : List VertexAttribute
deriving DecidableEq

/-- `Vertex::ATTRIBS` (`lib.rs:70`–`71`): `vertex_attr_array![0 =>
Float32x3, 1 => Float32x3]`, i.e. offsets 0 and 12 bytes. -/
def Vertex.ATTRIBS : List VertexAttribute :=
  [⟨0, 0, VertexFormat.Float32x3⟩, ⟨1, 12, VertexFormat.Float32x3⟩]

/-- `Vertex::desc` (`lib.rs:73`–`81`); `size_of::<Vertex>()` = 24 bytes. -/
def Vertex.desc : VertexBufferLayout :=
  ⟨24, VertexStepMode.Vertex, Vertex.ATTRIBS⟩

/-- `wgpu::PrimitiveTopology`. -/
inductive PrimitiveTopology where
  | TriangleList
  | TriangleStrip
deriving DecidableEq

/-- `wgpu::FrontFace`. -/
inductive FrontFace where
  | Ccw
  | Cw
deriving DecidableEq

/-- `wgpu::Face`. -/
inductive Face where
  | Front
  | Back
deriving DecidableEq

/-- `wgpu::PolygonMode`. -/
inductive PolygonMode where
  | Fill
  | Line
  | Point
deriving DecidableEq

/-- `wgpu::BlendState`, restricted to the one used (`REPLACE`,
`lib.rs:225`). -/
inductive BlendState where
  | REPLACE
deriving DecidableEq

/-- `wgpu::BufferUsages`, restricted to the one used (`lib.rs:251`). -/
inductive BufferUsages where
  | VERTEX
deriving DecidableEq

/-- The immutable data of the `wgpu::RenderPipeline` built at
`lib.rs:210`–`245`. -/
structure RenderPipeline where
  vertex_entry : String
  fragment_entry : String
  target_format : TextureFormat
  blend : BlendState
  topology : PrimitiveTopology
  front_face : FrontFace
  cull_mode : Option Face
  polygon_mode : PolygonMode
  vertex_layout : VertexBufferLayout
deriving DecidableEq

/-- The vertex `wgpu::Buffer` created at `lib.rs:247`–`253`; its contents
are the bytes of `VERTICES`, modelled as the vertex list itself. -/
structure Buffer where
  contents : List Vertex
  usage : BufferUsages
deriving DecidableEq

/-- `State` (`lib.rs:38`–`48`) without the opaque surface/device/queue/
window handles, whose effects are modelled as traces. -/
structure State where
  config : SurfaceConfiguration
  size : PhysicalSize
  render_pipeline : RenderPipeline
  vertex_buffer : Buffer
  num_vertices : Nat
deriving DecidableEq

/-- `wgpu::SurfaceError`. -/
inductive SurfaceError where
  | Timeout
  | Outdated
  | Lost
  | OutOfMemory
deriving DecidableEq

/-- `wgpu::LoadOp`. -/
inductive LoadOp where
  | Clear (color : Color)
  | Load
deriving DecidableEq

/-- `wgpu::StoreOp`. -/
inductive StoreOp where
  | Store
  | Discard
deriving DecidableEq

/-- One recorded GPU command of `State::render` (`lib.rs:89`–`124`). -/
inductive RenderOp where
  | beginRenderPass (load : LoadOp) (store : StoreOp)
  | setPipeline (p : RenderPipeline)
  | setVertexBuffer (slot : Nat) (buf : Buffer)
  | draw (vstart vstop istart istop : Nat)
  | submit
  | present
deriving DecidableEq

/-- `State::render` (`lib.rs:89`–`124`), parameterised by the outcome of
`surface.get_current_texture()` (the only fallible call, propagated by
`?`).  On success it records one render pass: the color attachment loads
with `Clear(WHITE)` and stores, then the pipeline and vertex buffer are
bound and `draw(0..num_vertices, 0..1)` is issued; the commands are
submitted and the frame presented. -/
def State.render (s : State) (acquire : Except SurfaceError Unit) :
    Except SurfaceError (List RenderOp) :=
  match acquire with
  | Except.error e => Except.error e
  | Except.ok _ => Except.ok
      [ RenderOp.beginRenderPass (LoadOp.Clear Color.WHITE) StoreOp.Store,
        RenderOp.setPipeline s.render_pipeline,
        RenderOp.setVertexBuffer 0 s.vertex_buffer,
        RenderOp.draw 0 s.num_vertices 0 1,
        RenderOp.submit,
        RenderOp.present ]

/-- `State::resize` (`lib.rs:125`–`133`).  The guard in the source is
`new_size.width == 0 && new_size.height == 0` — it returns early only when
BOTH dimensions are zero; otherwise it stores the new size, updates the
config dimensions and reapplies the configuration (the second component is
the trace of `surface.configure` calls). -/
def State.resize (s : State) (new_size : PhysicalSize) :
    State × List SurfaceConfiguration :=
  if new_size.width = 0 ∧ new_size.height = 0 then
    (s, [])
  else
    let config := { s.config with width := new_size.width,
                                  height := new_size.height }
    ({ s with size := new_size, config := config }, [config])

/-- `wgpu::SurfaceCapabilities`, restricted to the fields the program
reads (`lib.rs:178`–`194`). -/
structure SurfaceCapabilities where
  formats : List TextureFormat
  alpha_modes : List AlphaMode
deriving DecidableEq

/-- The surface-format selection at `lib.rs:180`–`186`:
`formats.iter().copied().filter(is_srgb).next().unwrap_or(formats[0])`.
`formats[0]` is evaluated eagerly by `unwrap_or` and panics when the list
is empty, modelled by `none`.  When the list is non-empty the result is
the first sRGB format if any, else `formats[0]`. -/
def chooseSurfaceFormat (formats : List TextureFormat) :
    Option TextureFormat :=
  match formats.head? with
  | none => none
  | some f0 => some (((formats.filter TextureFormat.is_srgb).head?).getD f0)

/-- `State::new` (`lib.rs:135`–`268`), restricted to its pure
configuration logic: builds the `SurfaceConfiguration` from the window
size and capabilities, the pipeline, and the vertex buffer, and applies
the configuration once (`lib.rs:255`; the trace is the second component).
`none` models the two slice-index panics on empty capability lists
(`formats[0]` at line 186, `alpha_modes[0]` at line 194); adapter/device
negotiation is opaque and not modelled. -/
def State.new (size : PhysicalSize) (caps : SurfaceCapabilities) :
    Option (State × List SurfaceConfiguration) :=
  let num_vertices := VERTICES.length
  match chooseSurfaceFormat caps.formats with
  | none => none
  | some surface_format =>
    match caps.alpha_modes.head? with
    | none => none
    | some alpha_mode =>
      let config : SurfaceConfiguration :=
        ⟨TextureUsages.RENDER_ATTACHMENT, surface_format,
          size.width, size.height, PresentMode.Fifo, alpha_mode, []⟩
      let render_pipeline : RenderPipeline :=
        ⟨"vs_main", "fs_main", config.format, BlendState.REPLACE,
          PrimitiveTopology.TriangleList, FrontFace.Ccw, some Face.Back,
          PolygonMode.Fill, Vertex.desc⟩
      let vertex_buffer : Buffer := ⟨VERTICES, BufferUsages.VERTEX⟩
      some (⟨config, size, render_pipeline, vertex_buffer, num_vertices⟩,
            [config])

/-- `winit::event::ElementState`. -/
inductive ElementState where
  | Pressed
  | Released
deriving DecidableEq

/-- `winit::event::VirtualKeyCode`, restricted to the one the program
distinguishes plus a stand-in for every other key. -/
inductive VirtualKeyCode where
  | Escape
  | OtherKey
deriving DecidableEq

/-- `winit::event::WindowEvent`, restricted to the variants matched at
`lib.rs:297`–`318`; `OtherEvent` stands for the wildcard arm. -/
inductive WindowEvent where
  | CloseRequested
  | KeyboardInput (virtual_keycode : Option VirtualKeyCode)
      (key_state : ElementState)
  | Resized (physical_size : PhysicalSize)
  | ScaleFactorChanged (new_inner_size : PhysicalSize)
  | OtherEvent
deriving DecidableEq

/-- `winit::event::Event` as matched by `run` (`lib.rs:281`–`322`).  The
`Bool` records whether the event's window id equals the program window's
id (the guard `window_id == state.window.id()`). -/
inductive Event where
  | RedrawRequested (sameWindow : Bool)
  | MainEventsCleared
  | WindowEvent (sameWindow : Bool) (event : WindowEvent)
  | OtherEvent
deriving DecidableEq

/-- The observable effects of one dispatch of the event closure in `run`:
the `surface.configure` calls made, how many times `state.render()` was
invoked, the commands it recorded, the errors printed by `eprintln!`, and
whether `control_flow.set_exit()` was called. -/
structure Effects where
  configures : List SurfaceConfiguration
  renderCalls : Nat
  renderOps : List RenderOp
  logs : List SurfaceError
  exit : Bool
deriving DecidableEq

/-- No effects. -/
def Effects.empty : Effects := ⟨[], 0, [], [], false⟩

/-- Concatenation of effect traces. -/
def Effects.append (a b : Effects) : Effects :=
  ⟨a.configures ++ b.configures, a.renderCalls + b.renderCalls,
    a.renderOps ++ b.renderOps, a.logs ++ b.logs, a.exit || b.exit⟩

/-- One dispatch of the event closure in `run` (`lib.rs:281`–`322`),
parameterised by the outcome of `surface.get_current_texture()` used when
the event triggers a render.  `State::update` is a no-op and
`State::input` always returns `false` (`lib.rs:85`–`88`), so every window
event reaches the inner match. -/
def runStep (s : State) (ev : Event) (acquire : Except SurfaceError Unit) :
    State × Effects :=
  match ev with
  | Event.RedrawRequested sameWindow =>
    if sameWindow then
      match s.render acquire with
      | Except.ok ops => (s, ⟨[], 1, ops, [], false⟩)
      | Except.error SurfaceError.Lost =>
        let r := s.resize s.size
        (r.1, ⟨r.2, 1, [], [], false⟩)
      | Except.error SurfaceError.OutOfMemory => (s, ⟨[], 1, [], [], true⟩)
      | Except.error e => (s, ⟨[], 1, [], [e], false⟩)
    else (s, Effects.empty)
  | Event.MainEventsCleared => (s, Effects.empty)
  | Event.WindowEvent sameWindow we =>
    if sameWindow then
      match we with
      | WindowEvent.CloseRequested => (s, ⟨[], 0, [], [], true⟩)
      | WindowEvent.KeyboardInput k st =>
        if k = some VirtualKeyCode.Escape ∧ st = ElementState.Pressed then
          (s, ⟨[], 0, [], [], true⟩)
        else (s, Effects.empty)
      | WindowEvent.Resized sz =>
        let r := s.resize sz
        (r.1, ⟨r.2, 0, [], [], false⟩)
      | WindowEvent.ScaleFactorChanged sz =>
        let r := s.resize sz
        (r.1, ⟨r.2, 0, [], [], false⟩)
      | WindowEvent.OtherEvent => (s, Effects.empty)
    else (s, Effects.empty)
  | Event.OtherEvent => (s, Effects.empty)

/-- The event loop of `run`: dispatches events in order, stopping (as
`control_flow.set_exit()` does) as soon as a step requests exit.  Each
event comes with the acquire outcome its render call (if any) would see. -/
def runLoop (s : State)
    (evs : List (Event × Except SurfaceError Unit)) : State × Effects :=
  match evs with
  | [] => (s, Effects.empty)
  | (ev, acq) :: rest =>
    let r := runStep s ev acq
    if r.2.exit then r
    else
      let r2 := runLoop r.1 rest
      (r2.1, r.2.append r2.2)

/-- Whether a recorded command begins a render pass. -/
def RenderOp.isBeginPass : RenderOp → Bool
  | RenderOp.beginRenderPass _ _ => true
  | _ => false

/-- Whether a recorded command is a draw call. -/
def RenderOp.isDraw : RenderOp → Bool
  | RenderOp.draw _ _ _ _ => true
  | _ => false

/-- A sample sRGB texture format, for concrete witnesses. -/
def sampleFormat : TextureFormat := ⟨0, true⟩

/-- Sample surface capabilities, for concrete witnesses. -/
def sampleCaps : SurfaceCapabilities :=
  ⟨[sampleFormat], [AlphaMode.Opaque]⟩

/-- A sample window size, for concrete witnesses. -/
def sampleSize : PhysicalSize := ⟨800, 600⟩

/-- The state `State::new` builds from `sampleSize` and `sampleCaps`. -/
def sampleState : State :=
  ⟨⟨TextureUsages.RENDER_ATTACHMENT, sampleFormat, 800, 600,
      PresentMode.Fifo, AlphaMode.Opaque, []⟩,
    sampleSize,
    ⟨"vs_main", "fs_main", sampleFormat, BlendState.REPLACE,
      PrimitiveTopology.TriangleList, FrontFace.Ccw, some Face.Back,
      PolygonMode.Fill, Vertex.desc⟩,
    ⟨VERTICES, BufferUsages.VERTEX⟩, 6⟩

theorem new_sample :
    State.new sampleSize sampleCaps = some (sampleState, [sampleState.config]) := by
  rfl

/-- The head of a filtered list is the first element satisfying the
predicate. -/
theorem filter_head_eq_find {α : Type} (p : α → Bool) (l : List α) :
    (l.filter p).head? = l.find? p := by
  induction l with
  | nil => rfl
  | cons a t ih =>
    by_cases h : p a
    · simp [List.filter_cons, List.find?_cons, h]
    · simp only [List.filter_cons, List.find?_cons]
      simp [h, ih]

/-- Claim C1 (code bug evidence): the source guard at `lib.rs:126` is
`new_size.width == 0 && new_size.height == 0`, so a resize in which only
ONE dimension is zero is NOT a no-op: `Resize(0, 5)` from the valid
800×600 state stores size (0, 5), sets `config.width` to 0 and reapplies
the configuration to the surface — contradicting the spec's invariant
that the applied width/height are always positive. -/
theorem resize_zero_width_is_applied :
    (sampleState.resize ⟨0, 5⟩).1.size = ⟨0, 5⟩ ∧
    (sampleState.resize ⟨0, 5⟩).1.config.width = 0 ∧
    (sampleState.resize ⟨0, 5⟩).1.config.height = 5 ∧
    (sampleState.resize ⟨0, 5⟩).2.length = 1 ∧
    ((sampleState.resize ⟨0, 5⟩).2.map SurfaceConfiguration.width) = [0] :=
  ⟨rfl, rfl, rfl, rfl, rfl⟩

/-- Claim C2: for nonzero dimensions (w, h), `Resize(w, h)` stores size
(w, h), sets the config width/height to exactly (w, h), leaves the other
config fields unchanged, and reapplies the updated configuration to the
surface exactly once. -/
theorem resize_nonzero_applies (s : State) (w h : Nat)
    (hw : w ≠ 0) (_hh : h ≠ 0) :
    (s.resize ⟨w, h⟩).1.size = ⟨w, h⟩ ∧
    (s.resize ⟨w, h⟩).1.config.width = w ∧
    (s.resize ⟨w, h⟩).1.config.height = h ∧
    (s.resize ⟨w, h⟩).1.config.format = s.config.format ∧
    (s.resize ⟨w, h⟩).1.config.present_mode = s.config.present_mode ∧
    (s.resize ⟨w, h⟩).1.config.alpha_mode = s.config.alpha_mode ∧
    (s.resize ⟨w, h⟩).2 = [(s.resize ⟨w, h⟩).1.config] := by
  have hg : ¬(w = 0 ∧ h = 0) := fun hc => hw hc.1
  simp [State.resize, hg]

/-- Witness for C2 at the concrete input (1024, 768). -/
theorem resize_nonzero_applies_witness :
    (1024 : Nat) ≠ 0 ∧ (768 : Nat) ≠ 0 ∧
    ((sampleState.resize ⟨1024, 768⟩).1.size = ⟨1024, 768⟩ ∧
     (sampleState.resize ⟨1024, 768⟩).1.config.width = 1024 ∧
     (sampleState.resize ⟨1024, 768⟩).1.config.height = 768 ∧
     (sampleState.resize ⟨1024, 768⟩).1.config.format =
       sampleState.config.format ∧
     (sampleState.resize ⟨1024, 768⟩).1.config.present_mode =
       sampleState.config.present_mode ∧
     (sampleState.resize ⟨1024, 768⟩).1.config.alpha_mode =
       sampleState.config.alpha_mode ∧
     (sampleState.resize ⟨1024, 768⟩).2 =
       [(sampleState.resize ⟨1024, 768⟩).1.config]) :=
  ⟨by decide, by decide,
    resize_nonzero_applies sampleState 1024 768 (by decide) (by decide)⟩

/-- Claim C4: when the render call returns `OutOfMemory`, the step sets
exit, so the loop terminates at once: whatever events are still queued,
the total number of render calls is the single failing one, no configure
or draw happens, and the state is unchanged. -/
theorem oom_exits_loop (s : State)
    (rest : List (Event × Except SurfaceError Unit)) :
    runLoop s ((Event.RedrawRequested true,
        Except.error SurfaceError.OutOfMemory) :: rest) =
      (s, ⟨[], 1, [], [], true⟩) := by
  simp [runLoop, runStep, State.render]

/-- Claim C8: a render error that is neither `Lost` nor `OutOfMemory`
is logged via `eprintln!`, the frame is dropped (no render ops, no
configure), exit is not requested, and the state is returned unchanged. -/
theorem other_error_logged_loop_continues (s : State) (e : SurfaceError)
    (h1 : e ≠ SurfaceError.Lost) (h2 : e ≠ SurfaceError.OutOfMemory) :
    runStep s (Event.RedrawRequested true) (Except.error e) =
      (s, ⟨[], 1, [], [e], false⟩) := by
  cases e with
  | Timeout => rfl
  | Outdated => rfl
  | Lost => exact absurd rfl h1
  | OutOfMemory => exact absurd rfl h2

/-- Witness for C8 at the concrete error `Timeout`. -/
theorem other_error_logged_loop_continues_witness :
    SurfaceError.Timeout ≠ SurfaceError.Lost ∧
    SurfaceError.Timeout ≠ SurfaceError.OutOfMemory ∧
    runStep sampleState (Event.RedrawRequested true)
        (Except.error SurfaceError.Timeout) =
      (sampleState, ⟨[], 1, [], [SurfaceError.Timeout], false⟩) :=
  ⟨by decide, by decide,
    other_error_logged_loop_continues sampleState SurfaceError.Timeout
      (by decide) (by decide)⟩

/-- Claim C9: a `ScaleFactorChanged` window event is dispatched exactly
like a `Resized` event — both invoke `State::resize` with the event's new
inner size, hence with the same zero-dimension guard; with a matching
window id the step is precisely the resize result. -/
theorem scale_factor_changed_same_as_resized (s : State)
    (sz : PhysicalSize) (b : Bool) (acq : Except SurfaceError Unit) :
    runStep s (Event.WindowEvent b (WindowEvent.ScaleFactorChanged sz)) acq =
      runStep s (Event.WindowEvent b (WindowEvent.Resized sz)) acq ∧
    runStep s (Event.WindowEvent true
        (WindowEvent.ScaleFactorChanged sz)) acq =
      ((s.resize sz).1, ⟨(s.resize sz).2, 0, [], [], false⟩) := by
  cases b <;> exact ⟨rfl, rfl⟩

/-- Claim C3: when a render returns `Lost`, the step performs exactly one
`surface.configure` with the currently stored size (`state.resize
(state.size)`, `lib.rs:286`), does not exit, and the following redraw
with a successful acquire renders normally (one pass, clear to white,
draw of the stored vertex count). -/
theorem lost_reconfigures_stored_size (s : State)
    (h : ¬(s.size.width = 0 ∧ s.size.height = 0)) :
    ∃ s' : State,
      runStep s (Event.RedrawRequested true)
          (Except.error SurfaceError.Lost) =
        (s', ⟨[{ s.config with width := s.size.width,
                               height := s.size.height }], 1, [], [], false⟩) ∧
      runStep s' (Event.RedrawRequested true) (Except.ok ()) =
        (s', ⟨[], 1,
          [ RenderOp.beginRenderPass (LoadOp.Clear Color.WHITE) StoreOp.Store,
            RenderOp.setPipeline s.render_pipeline,
            RenderOp.setVertexBuffer 0 s.vertex_buffer,
            RenderOp.draw 0 s.num_vertices 0 1,
            RenderOp.submit, RenderOp.present ], [], false⟩) := by
  refine ⟨{ s with size := s.size,
                   config := { s.config with
                                 width := s.size.width,
                                 height := s.size.height } }, ?_, ?_⟩
  · simp [runStep, State.render, State.resize, h]
  · simp [runStep, State.render]

/-- Witness for C3 at the concrete 800×600 state. -/
theorem lost_reconfigures_stored_size_witness :
    ¬(sampleState.size.width = 0 ∧ sampleState.size.height = 0) ∧
    (∃ s' : State,
      runStep sampleState (Event.RedrawRequested true)
          (Except.error SurfaceError.Lost) =
        (s', ⟨[{ sampleState.config with
                   width := sampleState.size.width,
                   height := sampleState.size.height }], 1, [], [], false⟩) ∧
      runStep s' (Event.RedrawRequested true) (Except.ok ()) =
        (s', ⟨[], 1,
          [ RenderOp.beginRenderPass (LoadOp.Clear Color.WHITE) StoreOp.Store,
            RenderOp.setPipeline sampleState.render_pipeline,
            RenderOp.setVertexBuffer 0 sampleState.vertex_buffer,
            RenderOp.draw 0 sampleState.num_vertices 0 1,
            RenderOp.submit, RenderOp.present ], [], false⟩)) :=
  ⟨by decide, lost_reconfigures_stored_size sampleState (by decide)⟩

/-- Claim C5: a successful render records exactly one render pass, its
color attachment load operation is a full clear to white (1, 1, 1, 1), it
is the very first recorded command, and it precedes the single draw. -/
theorem render_clear_white_before_draw (s : State) :
    ∃ ops : List RenderOp,
      s.render (Except.ok ()) = Except.ok ops ∧
      ops.countP RenderOp.isBeginPass = 1 ∧
      ops.countP RenderOp.isDraw = 1 ∧
      ops.head? = some (RenderOp.beginRenderPass
        (LoadOp.Clear ⟨1, 1, 1, 1⟩) StoreOp.Store) ∧
      ops.findIdx RenderOp.isBeginPass < ops.findIdx RenderOp.isDraw := by
  refine ⟨_, rfl, ?_, ?_, ?_, ?_⟩
  · rfl
  · rfl
  · rfl
  · exact Nat.succ_pos 2

/-- Claim C6: the vertex buffer any initialized state carries is built
from the fixed compile-time list `VERTICES` of exactly 6 vertices, each
with 3 position and 3 color components; the stored vertex count is 6, and
a successful render issues exactly one draw call, covering vertex range
0..6 with instance range 0..1. -/
theorem vertex_buffer_and_draw (size : PhysicalSize)
    (caps : SurfaceCapabilities) (s : State)
    (confs : List SurfaceConfiguration)
    (h : State.new size caps = some (s, confs)) :
    VERTICES.length = 6 ∧
    (∀ v ∈ VERTICES, v.position.length = 3 ∧ v.color.length = 3) ∧
    s.vertex_buffer.contents = VERTICES ∧
    s.num_vertices = 6 ∧
    ∃ ops : List RenderOp,
      s.render (Except.ok ()) = Except.ok ops ∧
      ops.countP RenderOp.isDraw = 1 ∧
      RenderOp.draw 0 6 0 1 ∈ ops := by
  simp only [State.new] at h
  split at h
  · exact absurd h (by simp)
  · split at h
    · exact absurd h (by simp)
    · rw [Option.some_inj, Prod.mk.injEq] at h
      obtain ⟨hs, -⟩ := h
      subst hs
      refine ⟨rfl, by decide, rfl, rfl, ?_⟩
      exact ⟨_, rfl, rfl, by simp [State.render, VERTICES]⟩

/-- Witness for C6 at the concrete sample size and capabilities. -/
theorem vertex_buffer_and_draw_witness :
    State.new sampleSize sampleCaps =
      some (sampleState, [sampleState.config]) ∧
    (VERTICES.length = 6 ∧
     (∀ v ∈ VERTICES, v.position.length = 3 ∧ v.color.length = 3) ∧
     sampleState.vertex_buffer.contents = VERTICES ∧
     sampleState.num_vertices = 6 ∧
     ∃ ops : List RenderOp,
       sampleState.render (Except.ok ()) = Except.ok ops ∧
       ops.countP RenderOp.isDraw = 1 ∧
       RenderOp.draw 0 6 0 1 ∈ ops) :=
  ⟨new_sample,
    vertex_buffer_and_draw sampleSize sampleCaps sampleState
      [sampleState.config] new_sample⟩

/-- Claim C7: for a non-empty supported-format list, the negotiated
surface format is the first sRGB format when one exists, and otherwise the
first format of the list. -/
theorem surface_format_first_srgb_else_first
    (formats : List TextureFormat) (h : formats ≠ []) :
    (formats.any TextureFormat.is_srgb = true →
      chooseSurfaceFormat formats = formats.find? TextureFormat.is_srgb) ∧
    (formats.any TextureFormat.is_srgb = false →
      chooseSurfaceFormat formats = formats.head?) := by
  cases formats with
  | nil => exact absurd rfl h
  | cons f0 t =>
    constructor
    · intro hany
      have hsome : ((f0 :: t).find? TextureFormat.is_srgb).isSome := by
        rw [List.find?_isSome]
        simpa using List.any_eq_true.mp hany
      obtain ⟨x, hx⟩ := Option.isSome_iff_exists.mp hsome
      simp [chooseSurfaceFormat, filter_head_eq_find, hx]
    · intro hnone
      have hfind : (f0 :: t).find? TextureFormat.is_srgb = none := by
        rw [List.find?_eq_none]
        intro x hxmem
        exact fun hpx => (List.any_eq_false.mp hnone x hxmem) hpx
      simp [chooseSurfaceFormat, filter_head_eq_find, hfind]

/-- Witness for C7 at a concrete format list whose first sRGB entry is
not its head. -/
theorem surface_format_first_srgb_else_first_witness :
    ([⟨5, false⟩, ⟨6, true⟩, ⟨7, true⟩] : List TextureFormat) ≠ [] ∧
    ((([⟨5, false⟩, ⟨6, true⟩, ⟨7, true⟩] :
          List TextureFormat).any TextureFormat.is_srgb = true →
       chooseSurfaceFormat [⟨5, false⟩, ⟨6, true⟩, ⟨7, true⟩] =
         ([⟨5, false⟩, ⟨6, true⟩, ⟨7, true⟩] :
           List TextureFormat).find? TextureFormat.is_srgb) ∧
     (([⟨5, false⟩, ⟨6, true⟩, ⟨7, true⟩] :
          List TextureFormat).any TextureFormat.is_srgb = false →
       chooseSurfaceFormat [⟨5, false⟩, ⟨6, true⟩, ⟨7, true⟩] =
         ([⟨5, false⟩, ⟨6, true⟩, ⟨7, true⟩] :
           List TextureFormat).head?)) :=
  ⟨by decide,
    surface_format_first_srgb_else_first
      [⟨5, false⟩, ⟨6, true⟩, ⟨7, true⟩] (by decide)⟩

/-- Claim C10: initialization requires non-empty capability lists: when
the supported-format list or the alpha-mode list is empty, the slice
indexing `formats[0]` / `alpha_modes[0]` panics (modelled by `none`)
instead of returning an error value. -/
theorem empty_caps_panic (size : PhysicalSize)
    (caps : SurfaceCapabilities)
    (h : caps.formats = [] ∨ caps.alpha_modes = []) :
    State.new size caps = none := by
  rcases h with h | h
  · have hf : chooseSurfaceFormat caps.formats = none := by
      rw [h]; rfl
    simp [State.new, hf]
  · have ha : caps.alpha_modes.head? = none := by
      rw [h]; rfl
    rcases hf : chooseSurfaceFormat caps.formats with _ | f
    · simp [State.new, hf]
    · simp [State.new, hf, ha]

/-- Witness for C10 at a concrete capability set with no formats. -/
theorem empty_caps_panic_witness :
    ((⟨[], [AlphaMode.Opaque]⟩ : SurfaceCapabilities).formats = [] ∨
      (⟨[], [AlphaMode.Opaque]⟩ : SurfaceCapabilities).alpha_modes = []) ∧
    State.new ⟨800, 600⟩ ⟨[], [AlphaMode.Opaque]⟩ = none :=
  ⟨Or.inl rfl,
    empty_caps_panic ⟨800, 600⟩ ⟨[], [AlphaMode.Opaque]⟩ (Or.inl rfl)⟩

end Window
